import Mathlib

/-!
Shallow embedding of the orchestration and idempotency core of the blog
pipeline (src/app/pipeline.py, src/app/state_client.py,
src/app/drive_manager.py, src/app/ai_processor.py, src/blog.py), together
with theorems settling the frozen claims about it.

Remote I/O (Google Drive, Gemini, git) is modelled by passing the outcome
of each remote call in explicitly: a value of type `Except String A` is
the outcome of a call that can raise (`Except.error` = the Python call
raised an exception), and the stored state document is passed as a value.
Machine-level details (byte buffers, pagination chunking, sleeping between
retries) are irrelevant to the claims and are not modelled.
-/

/-- Minimal JSON value model, for the state documents handled by
`json.loads` / `json.dumps` in state_client.py and blog.py. -/
inductive JVal where
  | jnull
  | jbool (b : Bool)
  | jnum (n : Int)
  | jstr (s : String)
  | jarr (xs : List JVal)
  | jobj (fields : List (String × JVal))

/-- Python `dict.get(key)` on a JSON object: `none` when the key is absent
or the value is not a JSON object (a non-dict raises in the source at the
first subscript, which the callers below turn into an error as well). -/
def jGet (j : JVal) (key : String) : Option JVal :=
  match j with
  | JVal.jobj fields => fields.lookup key
  | _ => none

/-- `isinstance(x, list)` on an optional JSON value. -/
def jIsList (j : Option JVal) : Bool :=
  match j with
  | some (JVal.jarr _) => true
  | _ => false

/-- Python `data[key] = v` on a JSON object field list: replaces the value
if the key is present, else appends the binding. -/
def jSet (fields : List (String × JVal)) (key : String) (v : JVal) :
    List (String × JVal) :=
  if (fields.lookup key).isSome then
    fields.map (fun p => if p.1 == key then (p.1, v) else p)
  else
    fields ++ [(key, v)]

/-- `data.setdefault("version", 1)` from state_client.download_state. -/
def jSetdefaultVersion (j : JVal) : JVal :=
  match j with
  | JVal.jobj fields =>
      if (fields.lookup "version").isSome then JVal.jobj fields
      else JVal.jobj (fields ++ [("version", JVal.jnum 1)])
  | _ => j

namespace StateClient

/-- One entry of the `processed` list in state.json
(state_client.mark_processed appends these dicts). -/
structure ProcessedRecord where
  file_id : String
  post_slug : String
  processed_at : String
deriving DecidableEq, Repr

/-- The state document after deserialization, as the typed view used by
is_processed / mark_processed: a version and the processed list. -/
structure StateDoc where
  version : Nat
  processed : List ProcessedRecord
deriving DecidableEq, Repr

/-- state_client._create_empty_state_file content:
`{"version": 1, "processed": []}`. -/
def empty_state : JVal :=
  JVal.jobj [("version", JVal.jnum 1), ("processed", JVal.jarr [])]

/-- Outcome of `StateClient.download_state`: the deserialized document (or
the raised error), plus whether a fresh empty state file was created and
persisted by `ensure_state_file` because none existed. -/
structure DownloadResult where
  result : Except String JVal
  createdNew : Bool

/-- The schema check and version defaulting at the end of
`download_state`: raise `ValueError` when `"processed"` is missing or not
a list, else return the document with `version` defaulted to 1. -/
def validate_state (data : JVal) : Except String JVal :=
  if jIsList (jGet data "processed") then Except.ok (jSetdefaultVersion data)
  else Except.error "Invalid state.json: missing processed list"

/-- `StateClient.download_state`, as a function of what is stored at the
state file location: `none` = no state file exists (then
`ensure_state_file` creates and persists the empty one, and the download
returns its content); `some (Except.error e)` = the download or
`json.loads` raised; `some (Except.ok j)` = the stored document parsed to
`j`. -/
def download_state (stored : Option (Except String JVal)) : DownloadResult :=
  match stored with
  | none => { result := validate_state empty_state, createdNew := true }
  | some (Except.error e) => { result := Except.error e, createdNew := false }
  | some (Except.ok data) => { result := validate_state data, createdNew := false }

/-- `StateClient.is_processed` membership test on the downloaded document:
scans the processed list for an entry with the given file_id. -/
def is_processed (state : StateDoc) (drive_file_id : String) : Bool :=
  state.processed.any (fun item => item.file_id == drive_file_id)

/-- `StateClient.mark_processed` on the freshly downloaded document
`state`: no-op when the id is already present, else append a record and
upload. The returned Bool records whether `upload_state` was invoked. -/
def mark_processed (state : StateDoc) (drive_file_id post_slug now : String) :
    StateDoc × Bool :=
  if state.processed.any (fun item => item.file_id == drive_file_id) then
    (state, false)
  else
    ({ state with
        processed := state.processed ++
          [{ file_id := drive_file_id, post_slug := post_slug, processed_at := now }] },
     true)

end StateClient

namespace Blog

/-- blog.py `load_state` default: `{"processed_ids": []}`. -/
def default_local_state : JVal := JVal.jobj [("processed_ids", JVal.jarr [])]

/-- blog.py `load_state`, as a function of the local state file: `none` =
file absent; `some (Except.error e)` = open/`json.load` raised;
`some (Except.ok data)` = parsed content. Mirrors the source: non-dict
content and any exception fall back to the default, and a dict whose
`processed_ids` is missing or not a list gets it silently replaced by
`[]`. -/
def load_state (file : Option (Except String JVal)) : JVal :=
  match file with
  | none => default_local_state
  | some (Except.error _) => default_local_state
  | some (Except.ok data) =>
      match data with
      | JVal.jobj fields =>
          if jIsList (fields.lookup "processed_ids") then JVal.jobj fields
          else JVal.jobj (jSet fields "processed_ids" (JVal.jarr []))
      | _ => default_local_state

/-- blog.py `retry` inner loop: `attempts i` is the outcome of the i-th
call of `fn` (1-based), `fuel` is the number of attempts still allowed.
On a failure with no attempt left the last error is raised; otherwise the
loop sleeps (not modelled) and tries again. -/
def retryAux (attempts : Nat → Except String α) (i : Nat) :
    Nat → Except String α
  | 0 => Except.error "retry: no attempts"
  | fuel + 1 =>
      match attempts i with
      | Except.ok v => Except.ok v
      | Except.error e =>
          if fuel = 0 then Except.error e
          else retryAux attempts (i + 1) fuel

/-- blog.py `retry(fn, tries=...)`: run attempts 1..tries, returning the
first success, or raising the error of the final attempt. -/
def retry (tries : Nat) (attempts : Nat → Except String α) : Except String α :=
  retryAux attempts 1 tries

/-- Python `s.strip()` on the character sequence of `s`. -/
def py_strip (s : String) : String :=
  String.mk (((s.data.dropWhile Char.isWhitespace).reverse.dropWhile
    Char.isWhitespace).reverse)

/-- Python `s.rstrip()` on the character sequence of `s`. -/
def py_rstrip (s : String) : String :=
  String.mk ((s.data.reverse.dropWhile Char.isWhitespace).reverse)

/-- blog.py `normalize_caption`: strip, and cap at 500 characters with a
trailing ellipsis. -/
def normalize_caption (text : String) : String :=
  let t := py_strip text
  if 500 < t.data.length then
    String.mk ((py_rstrip (String.mk (t.data.take 500))).data ++ ['…'])
  else t

/-- The typed view of the JSON object extracted from the model response in
`ai_make_title_and_captions`: `title` is `data.get("title")` and
`captions` is `data.get("captions")` (`none` when the key is missing,
falsy, or its value is not a list - the source then substitutes `[]`). -/
structure GenData where
  title : Option String
  captions : Option (List String)
deriving DecidableEq, Repr

/-- The generic fallback title of `ai_make_title_and_captions`. -/
def default_title : String := "오늘의 사진 기록"

/-- The per-item placeholder caption of the failure branch. -/
def placeholder_caption : String := "설명을 생성하지 못했습니다."

/-- Result of `ai_make_title_and_captions`. -/
structure CapResult where
  title : String
  captions : List String
deriving DecidableEq, Repr

/-- The caption-count coercion in `ai_make_title_and_captions`: pad with
empty strings up to `n`, truncate to `n`, then normalize each caption. -/
def coerce_captions (n : Nat) (cs : List String) : List String :=
  let cs1 := if cs.length < n then cs ++ List.replicate (n - cs.length) "" else cs
  let cs2 := cs1.take n
  cs2.map normalize_caption

/-- blog.py `ai_make_title_and_captions` for a batch of `n` images, as a
function of the service interaction: `Except.error e` = the retried
`generate_content` call ultimately raised; `Except.ok none` =
`extract_json_object` found no usable JSON object (the source then raises
`ValueError` into its own catch-all); `Except.ok (some data)` = the parsed
response. Every failure path degrades to the placeholder result; the
function itself never raises. -/
def ai_make_title_and_captions (n : Nat)
    (service : Except String (Option GenData)) : CapResult :=
  match service with
  | Except.error _ =>
      { title := default_title, captions := List.replicate n placeholder_caption }
  | Except.ok none =>
      { title := default_title, captions := List.replicate n placeholder_caption }
  | Except.ok (some data) =>
      let title := py_strip (match data.title with
        | some t => if t == "" then default_title else t
        | none => default_title)
      { title := title, captions := coerce_captions n (data.captions.getD []) }

end Blog

namespace DriveManager

/-- The metadata of one file in the remote folder (the fields Google Drive
holds for it; drive_manager requests only id, name, mimeType and
modifiedTime of these). -/
structure GFile where
  id : String
  name : String
  mimeType : String
  createdTime : String
  modifiedTime : String
deriving DecidableEq, Repr

/-- drive_manager.DriveImage (local_path is attached by download). -/
structure DriveImage where
  file_id : String
  name : String
  mime_type : String
  modified_time : String
  local_path : Option String := none
deriving DecidableEq, Repr

/-- The conversion of one API response entry into a DriveImage in
`_list_images_in_folder` (createdTime is not requested and is dropped). -/
def toDriveImage (f : GFile) : DriveImage :=
  { file_id := f.id, name := f.name, mime_type := f.mimeType,
    modified_time := f.modifiedTime }

/-- The sort key comparison used by
`images.sort(key=lambda x: x.modified_time)`: Python string comparison,
i.e. lexicographic comparison of the character sequences. -/
def imgLe (a b : DriveImage) : Prop :=
  a.modified_time.data ≤ b.modified_time.data

instance : DecidableRel imgLe :=
  fun a b => inferInstanceAs (Decidable (a.modified_time.data ≤ b.modified_time.data))

instance : IsTotal DriveImage imgLe :=
  ⟨fun a b => le_total a.modified_time.data b.modified_time.data⟩

instance : IsTrans DriveImage imgLe :=
  ⟨fun _ _ _ hab hbc => le_trans hab hbc⟩

/-- `DriveManager._list_images_in_folder`, as a function of the API
listing response for the folder query (already restricted to non-trashed
image/* files by the query): convert each entry and sort ascending by
modified_time. Python list.sort is a stable comparison sort; it is
modelled by the stable `List.insertionSort`. -/
def _list_images_in_folder (files : List GFile) : List DriveImage :=
  List.insertionSort imgLe (files.map toDriveImage)

/-- The selection loop body of `DriveManager.pick_new_images`: walk the
listing in order keeping unprocessed items in `acc`; after each item, stop
as soon as `acc` holds `batch` items. `isProc` is
`state_client.is_processed` (the state document does not change during the
scan; a single runner is assumed). -/
def pickLoop (isProc : String → Bool) (batch : Nat) :
    List DriveImage → List DriveImage → List DriveImage
  | acc, [] => acc
  | acc, img :: rest =>
      let acc2 := if isProc img.file_id then acc else acc ++ [img]
      if batch ≤ acc2.length then acc2 else pickLoop isProc batch acc2 rest

/-- `DriveManager.pick_new_images` over a given listing. -/
def pick_new_images (isProc : String → Bool) (batch : Nat)
    (all_images : List DriveImage) : List DriveImage :=
  pickLoop isProc batch [] all_images

end DriveManager

namespace AIProcessor

/-- One entry of the mock captions JSON built by
`AIProcessor._mock_captions`. -/
structure MockCaption where
  index : Nat
  line1 : String
  line2 : String
deriving DecidableEq, Repr

/-- app/ai_processor.AIProcessor (prompts_dir is not needed by the
claims). -/
structure Processor where
  provider : String
  model : String
  api_key : Option String
  mock_mode : Bool
deriving DecidableEq, Repr

/-- `AIProcessor._mock_captions`: one dummy caption per image, indexed
from 1. -/
def _mock_captions (images : List DriveManager.DriveImage) : List MockCaption :=
  (List.range images.length).map (fun i =>
    { index := i + 1,
      line1 := "(더미) 사진 " ++ toString (i + 1) ++ " 한 줄 소개",
      line2 := "(더미) 사진 " ++ toString (i + 1) ++ " 두 번째 줄 소개" })

/-- `AIProcessor.generate_photo_captions`: raises on an empty batch, caps
the batch at 4 images, returns the mock captions in mock mode, and raises
in real mode (which is disabled in the source). -/
def generate_photo_captions (p : Processor)
    (images : List DriveManager.DriveImage) :
    Except String (List MockCaption) :=
  if images.isEmpty then
    Except.error "generate_photo_captions: images is empty"
  else
    let images := images.take 4
    if p.mock_mode then Except.ok (_mock_captions images)
    else Except.error "Real AI mode is disabled for now. Set ai.mock_mode=true to continue development."

end AIProcessor

namespace Pipeline

/-- app/pipeline.BuildResult, restricted to the fields run() reads. -/
structure BuildResult where
  post_path : String
  post_slug : String
deriving DecidableEq, Repr

/-- app/pipeline.PipelineResult. -/
structure PipelineResult where
  ok : Bool
  message : String
  processed_count : Nat := 0
  post_path : Option String := none
  post_slug : Option String := none
  errors : Option (List String) := none
deriving DecidableEq, Repr

/-- The environment of one `Pipeline.run` invocation: the outcome each
collaborator would produce if invoked. `tracked` is what
`_git_is_tracked` reports per path; the four step fields are the outcomes
of `_pick_and_download`, `_ai_generate`, `_build_content` and
`_git_publish`; `mark_processed` is the per-file outcome of
`state_client.mark_processed` inside `_update_state`. -/
structure PipelineEnv where
  tracked : String → Bool
  pick_and_download : Except String (List DriveManager.DriveImage)
  ai_generate : Except String Unit
  build_content : Except String BuildResult
  git_publish : Except String Unit
  mark_processed : String → Except String Unit

/-- The externally visible calls a run makes, in order. `mark fid` is a
`state_client.mark_processed` call for one file id; the other
constructors are the four pipeline steps. -/
inductive Step where
  | pick
  | generate
  | build
  | publish
  | mark (file_id : String)
deriving DecidableEq, Repr

/-- The secret files checked by `_preflight_security_checks`, in order. -/
def secrets : List String := ["client_secret.json", "token.json", ".env"]

/-- The message of the RuntimeError raised by the security preflight. -/
def security_message (s : String) : String :=
  "SECURITY BLOCK: " ++ s ++ " is tracked by git. Remove it from git history and add to .gitignore."

/-- `Pipeline.run`, returning the PipelineResult together with the trace
of collaborator calls it made. Mirrors the source order: security
preflight (immediate failure, nothing invoked), pick+download, empty-batch
early success, AI generation, content build, git publish, and only after a
successful publish the per-image state updates of `_update_state`, whose
individual failures are caught and only lower processed_count. -/
def run (env : PipelineEnv) : PipelineResult × List Step :=
  match secrets.find? env.tracked with
  | some s =>
      ({ ok := false, message := security_message s,
         errors := some [security_message s] }, [])
  | none =>
      match env.pick_and_download with
      | Except.error e =>
          ({ ok := false, message := "Pipeline failed.", errors := some [e] },
           [Step.pick])
      | Except.ok downloaded =>
          if downloaded.isEmpty then
            ({ ok := true, message := "No new images." }, [Step.pick])
          else
            match env.ai_generate with
            | Except.error e =>
                ({ ok := false, message := "Pipeline failed.", errors := some [e] },
                 [Step.pick, Step.generate])
            | Except.ok _ =>
                match env.build_content with
                | Except.error e =>
                    ({ ok := false, message := "Pipeline failed.",
                       errors := some [e] },
                     [Step.pick, Step.generate, Step.build])
                | Except.ok br =>
                    match env.git_publish with
                    | Except.error e =>
                        ({ ok := false, message := "Pipeline failed.",
                           post_path := some br.post_path,
                           post_slug := some br.post_slug,
                           errors := some [e] },
                         [Step.pick, Step.generate, Step.build, Step.publish])
                    | Except.ok _ =>
                        ({ ok := true,
                           message := "Pipeline completed successfully.",
                           processed_count :=
                             (downloaded.filter (fun img =>
                               (env.mark_processed img.file_id).isOk)).length,
                           post_path := some br.post_path,
                           post_slug := some br.post_slug },
                         [Step.pick, Step.generate, Step.build, Step.publish] ++
                           downloaded.map (fun img => Step.mark img.file_id))

/-- A step from selection through publish was invoked by the run and
raised: either pick+download raised, or it returned a non-empty batch and
one of generation, build, publish raised (an earlier raise among these
aborts before the later ones are invoked, and the run fails either
way). -/
def step_raised (env : PipelineEnv) : Prop :=
  env.pick_and_download.isOk = false ∨
    ∃ l, env.pick_and_download = Except.ok l ∧ l ≠ [] ∧
      (env.ai_generate.isOk = false ∨ env.build_content.isOk = false ∨
        env.git_publish.isOk = false)

end Pipeline

/-! Concrete inputs used by the witnesses and counterexamples below. -/

/-- A state document that already records file id f1. -/
def exDoc : StateClient.StateDoc :=
  { version := 1,
    processed := [{ file_id := "f1", post_slug := "s1", processed_at := "t1" }] }

/-- A numbered concrete image. -/
def exImg (i : Nat) : DriveManager.DriveImage :=
  { file_id := "f" ++ toString i, name := "n" ++ toString i,
    mime_type := "image/jpeg", modified_time := "m" ++ toString i }

/-- A backlog of 10 distinct images. -/
def tenImgs : List DriveManager.DriveImage := (List.range 10).map exImg

/-- Folder entries whose creation and modification timestamps agree,
labelled T1 < T2 < T3 as in the spec ordering test. -/
def fT1 : DriveManager.GFile :=
  { id := "a1", name := "n1", mimeType := "image/jpeg",
    createdTime := "T1", modifiedTime := "T1" }

def fT2 : DriveManager.GFile :=
  { id := "a2", name := "n2", mimeType := "image/jpeg",
    createdTime := "T2", modifiedTime := "T2" }

def fT3 : DriveManager.GFile :=
  { id := "a3", name := "n3", mimeType := "image/jpeg",
    createdTime := "T3", modifiedTime := "T3" }

/-- A file created first (C1) but modified later (M2). -/
def gA : DriveManager.GFile :=
  { id := "ga", name := "na", mimeType := "image/jpeg",
    createdTime := "C1", modifiedTime := "M2" }

/-- A file created second (C2) but modified earlier (M1). -/
def gB : DriveManager.GFile :=
  { id := "gb", name := "nb", mimeType := "image/jpeg",
    createdTime := "C2", modifiedTime := "M1" }

/-- The creation timestamp the remote store holds for the listed file with
the given id. -/
def createdOf (files : List DriveManager.GFile) (fid : String) : String :=
  ((files.find? (fun f => f.id == fid)).map DriveManager.GFile.createdTime).getD ""

/-- A concrete build result. -/
def exBr : Pipeline.BuildResult := { post_path := "p", post_slug := "slug" }

/-- An environment in which selection+download raises. -/
def envPickFail : Pipeline.PipelineEnv :=
  { tracked := fun _ => false,
    pick_and_download := Except.error "Drive listing failed",
    ai_generate := Except.ok (),
    build_content := Except.ok exBr,
    git_publish := Except.ok (),
    mark_processed := fun _ => Except.ok () }

/-- An environment in which git reports .env as tracked. -/
def envSec : Pipeline.PipelineEnv :=
  { tracked := fun p => p == ".env",
    pick_and_download := Except.ok [exImg 1],
    ai_generate := Except.ok (),
    build_content := Except.ok exBr,
    git_publish := Except.ok (),
    mark_processed := fun _ => Except.ok () }

/-- An environment in which every step succeeds but the state write for f2
fails. -/
def envMarkFail : Pipeline.PipelineEnv :=
  { tracked := fun _ => false,
    pick_and_download := Except.ok [exImg 1, exImg 2],
    ai_generate := Except.ok (),
    build_content := Except.ok exBr,
    git_publish := Except.ok (),
    mark_processed := fun fid =>
      if fid == "f2" then Except.error "state write failed" else Except.ok () }

/-- An environment in which content generation raises (as the app
generator does outside mock mode). -/
def envGenFail : Pipeline.PipelineEnv :=
  { tracked := fun _ => false,
    pick_and_download := Except.ok [exImg 1],
    ai_generate := Except.error "Real AI mode is disabled for now. Set ai.mock_mode=true to continue development.",
    build_content := Except.ok exBr,
    git_publish := Except.ok (),
    mark_processed := fun _ => Except.ok () }

/-- The AI processor with mock mode off, as built when config ai.mock_mode
is false. -/
def realProc : AIProcessor.Processor :=
  { provider := "gemini", model := "gemini-2.0-flash", api_key := some "k",
    mock_mode := false }

/-- The AI processor in mock mode. -/
def mockProc : AIProcessor.Processor :=
  { provider := "gemini", model := "gemini-2.0-flash", api_key := none,
    mock_mode := true }

/-- An attempt sequence that fails on attempts 1..3 and succeeds on 4. -/
def exAttempts : Nat → Except String Nat :=
  fun i => if i = 4 then Except.ok 42 else Except.error (toString i)

/-- A processed-state predicate under which no item is processed yet. -/
def noneProcessed : String → Bool := fun _ => false

/-! Helper lemmas. -/

/-- Normalizing the empty caption yields the empty caption. -/
theorem normalize_caption_empty : Blog.normalize_caption "" = "" := rfl

/-- Unrolling blog.retry for tries = 4. -/
theorem retry_four_eq {α : Type} (f : Nat → Except String α) :
    Blog.retry 4 f =
      (match f 1 with
       | Except.ok v => Except.ok v
       | Except.error _ =>
         match f 2 with
         | Except.ok v => Except.ok v
         | Except.error _ =>
           match f 3 with
           | Except.ok v => Except.ok v
           | Except.error _ =>
             match f 4 with
             | Except.ok v => Except.ok v
             | Except.error e => Except.error e) := rfl

/-- The caption coercion always yields exactly n captions. -/
theorem coerce_captions_length (n : Nat) (cs : List String) :
    (Blog.coerce_captions n cs).length = n := by
  by_cases h : cs.length < n <;>
    simp [Blog.coerce_captions, h] <;> omega

/-- With at most n captions, the coercion pads with empty strings. -/
theorem coerce_captions_pad (n : Nat) (cs : List String)
    (h : cs.length ≤ n) :
    Blog.coerce_captions n cs =
      cs.map Blog.normalize_caption ++ List.replicate (n - cs.length) "" := by
  by_cases hlt : cs.length < n
  · have hlen : (cs ++ List.replicate (n - cs.length) "").length ≤ n := by
      simp; omega
    simp [Blog.coerce_captions, hlt, List.take_of_length_le hlen,
      normalize_caption_empty]
  · have hn : cs.length = n := by omega
    simp [Blog.coerce_captions, hlt, hn, List.take_of_length_le (le_of_eq hn)]

/-- With at least n captions, the coercion truncates to the first n. -/
theorem coerce_captions_trunc (n : Nat) (cs : List String)
    (h : n ≤ cs.length) :
    Blog.coerce_captions n cs = (cs.take n).map Blog.normalize_caption := by
  have hlt : ¬ cs.length < n := by omega
  simp [Blog.coerce_captions, hlt]

/-! Claim theorems. -/

/-- Claim C3: calling state_client.mark_processed with an id already
present in the processed list leaves the state document unchanged and
performs no upload (the returned Bool is the upload flag). -/
theorem C3_mark_processed_idempotent (doc : StateClient.StateDoc)
    (id slug now : String)
    (h : doc.processed.any (fun item => item.file_id == id) = true) :
    StateClient.mark_processed doc id slug now = (doc, false) := by
  simp [StateClient.mark_processed, h]

/-- Witness for C3 at a concrete document already holding f1. -/
theorem C3_witness :
    exDoc.processed.any (fun item => item.file_id == "f1") = true ∧
    StateClient.mark_processed exDoc "f1" "s2" "t2" = (exDoc, false) :=
  ⟨by decide, C3_mark_processed_idempotent exDoc "f1" "s2" "t2" (by decide)⟩

/-- Claim C9: with tries = 4, blog.retry returns the success of the 4th
attempt when the first 3 fail, raises the 4th error when all fail, and
never consults any attempt past the 4th. -/
theorem C9_retry_bound {α : Type} (f : Nat → Except String α)
    (e1 e2 e3 : String)
    (h1 : f 1 = Except.error e1) (h2 : f 2 = Except.error e2)
    (h3 : f 3 = Except.error e3) :
    (∀ v, f 4 = Except.ok v → Blog.retry 4 f = Except.ok v) ∧
    (∀ e4, f 4 = Except.error e4 → Blog.retry 4 f = Except.error e4) ∧
    (∀ g : Nat → Except String α, g 1 = f 1 → g 2 = f 2 → g 3 = f 3 →
      g 4 = f 4 → Blog.retry 4 g = Blog.retry 4 f) := by
  refine ⟨?_, ?_, ?_⟩
  · intro v h4
    rw [retry_four_eq, h1, h2, h3, h4]
  · intro e4 h4
    rw [retry_four_eq, h1, h2, h3, h4]
  · intro g hg1 hg2 hg3 hg4
    rw [retry_four_eq, retry_four_eq, hg1, hg2, hg3, hg4]

/-- Witness for C9: 3 failures then a success returns the success. -/
theorem C9_witness :
    exAttempts 4 = Except.ok 42 ∧ Blog.retry 4 exAttempts = Except.ok 42 :=
  ⟨rfl, (C9_retry_bound exAttempts "1" "2" "3" rfl rfl rfl).1 42 rfl⟩

/-- Claim C7: ai_make_title_and_captions always returns exactly n
captions: short responses are padded with empty strings, long responses
are truncated; in particular a 2-caption response for a 4-item batch
yields 4 captions with the last 2 empty. -/
theorem C7_caption_coercion :
    (∀ (n : Nat) (service : Except String (Option Blog.GenData)),
      (Blog.ai_make_title_and_captions n service).captions.length = n) ∧
    (∀ (n : Nat) (t : Option String) (cs : List String), cs.length ≤ n →
      (Blog.ai_make_title_and_captions n
        (Except.ok (some ⟨t, some cs⟩))).captions =
        cs.map Blog.normalize_caption ++ List.replicate (n - cs.length) "") ∧
    (∀ (n : Nat) (t : Option String) (cs : List String), n ≤ cs.length →
      (Blog.ai_make_title_and_captions n
        (Except.ok (some ⟨t, some cs⟩))).captions =
        (cs.take n).map Blog.normalize_caption) ∧
    (Blog.ai_make_title_and_captions 4
      (Except.ok (some ⟨some "t", some ["a", "b"]⟩))).captions =
      ["a", "b", "", ""] := by
  refine ⟨?_, ?_, ?_, ?_⟩
  · intro n service
    rcases service with e | od
    · simp [Blog.ai_make_title_and_captions]
    · rcases od with _ | d
      · simp [Blog.ai_make_title_and_captions]
      · simp [Blog.ai_make_title_and_captions, coerce_captions_length]
  · intro n t cs h
    simp [Blog.ai_make_title_and_captions, coerce_captions_pad n cs h]
  · intro n t cs h
    simp [Blog.ai_make_title_and_captions, coerce_captions_trunc n cs h]
  · decide

/-- Witness for C7 on a 1-caption response for a 3-item batch. -/
theorem C7_witness :
    (["x"] : List String).length ≤ 3 ∧
    (Blog.ai_make_title_and_captions 3
      (Except.ok (some ⟨some "t", some ["x"]⟩))).captions =
      ["x"].map Blog.normalize_caption ++
        List.replicate (3 - (["x"] : List String).length) "" :=
  ⟨by decide, C7_caption_coercion.2.1 3 (some "t") ["x"] (by decide)⟩

/-- Claim C10 (amended): the Drive state client creates, persists and
returns the empty document when none exists and surfaces schema
corruption as an error; the legacy local loader blog.load_state instead
silently substitutes an empty state on absence or read failure (and, per
the counterexample, silently repairs an invalid document). -/
theorem C10_state_load (j : JVal) (h : jIsList (jGet j "processed") = false) :
    StateClient.download_state none =
      { result := Except.ok StateClient.empty_state, createdNew := true } ∧
    StateClient.download_state (some (Except.ok j)) =
      { result := Except.error "Invalid state.json: missing processed list",
        createdNew := false } ∧
    (∀ e, StateClient.download_state (some (Except.error e)) =
      { result := Except.error e, createdNew := false }) ∧
    Blog.load_state none = Blog.default_local_state ∧
    (∀ e, Blog.load_state (some (Except.error e)) = Blog.default_local_state) := by
  refine ⟨rfl, ?_, fun e => rfl, rfl, fun e => rfl⟩
  simp [StateClient.download_state, StateClient.validate_state, h]

/-- Witness for C10 on a stored document with no processed field. -/
theorem C10_witness :
    jIsList (jGet (JVal.jobj []) "processed") = false ∧
    StateClient.download_state (some (Except.ok (JVal.jobj []))) =
      { result := Except.error "Invalid state.json: missing processed list",
        createdNew := false } :=
  ⟨rfl, (C10_state_load (JVal.jobj []) rfl).2.1⟩

/-- Claim C10 counterexample: blog.load_state, given a stored document
with no processed-ids list, does not raise - it silently returns the
document repaired with an empty list, contradicting the claim that every
state load surfaces schema corruption as an error. -/
theorem C10_counterexample :
    Blog.load_state (some (Except.ok (JVal.jobj [("version", JVal.jnum 1)]))) =
      JVal.jobj [("version", JVal.jnum 1), ("processed_ids", JVal.jarr [])] := rfl

/-- The selection loop collects, onto `acc`, the first
`batch - acc.length` unprocessed items of the remaining listing, as long
as the cap has not been reached yet. -/
theorem pickLoop_eq (isProc : String → Bool) (batch : Nat) :
    ∀ (l acc : List DriveManager.DriveImage), acc.length < batch →
      DriveManager.pickLoop isProc batch acc l =
        acc ++ (l.filter (fun i => !(isProc i.file_id))).take (batch - acc.length) := by
  intro l
  induction l with
  | nil => intro acc _; simp [DriveManager.pickLoop]
  | cons img rest ih =>
    intro acc hacc
    by_cases hp : isProc img.file_id = true
    · have hb : ¬ batch ≤ acc.length := Nat.not_le.mpr hacc
      have hstep : DriveManager.pickLoop isProc batch acc (img :: rest) =
          DriveManager.pickLoop isProc batch acc rest := by
        simp [DriveManager.pickLoop, hp, hb]
      rw [hstep, ih acc hacc]
      congr 1
      simp [List.filter_cons, hp]
    · by_cases h2 : batch ≤ acc.length + 1
      · have hstep : DriveManager.pickLoop isProc batch acc (img :: rest) =
            acc ++ [img] := by
          simp [DriveManager.pickLoop, hp, h2]
        have hone : batch - acc.length = 1 := by omega
        rw [hstep]
        simp [List.filter_cons, hp, hone]
      · have hstep : DriveManager.pickLoop isProc batch acc (img :: rest) =
            DriveManager.pickLoop isProc batch (acc ++ [img]) rest := by
          simp [DriveManager.pickLoop, hp, h2]
        have hlen : (acc ++ [img]).length < batch := by simp; omega
        rw [hstep, ih (acc ++ [img]) hlen]
        have hsub : batch - acc.length = (batch - (acc.length + 1)) + 1 := by omega
        simp [List.filter_cons, hp, hsub, List.append_assoc]

/-- For a positive cap, selection is: filter the unprocessed items in
listing order and take the first `batch`. -/
theorem pick_new_images_eq (isProc : String → Bool) (batch : Nat)
    (hb : 1 ≤ batch) (l : List DriveManager.DriveImage) :
    DriveManager.pick_new_images isProc batch l =
      (l.filter (fun i => !(isProc i.file_id))).take batch := by
  have h := pickLoop_eq isProc batch l [] (by simpa using hb)
  simpa [DriveManager.pick_new_images] using h

/-- Claim C5 (amended: for maxBatch ≥ 1): selection scans the listing in
order, keeps only unprocessed items, returns the first
min(maxBatch, number of unprocessed) of them, and never looks past the
point where maxBatch unprocessed items have been collected (appending
anything after that point does not change the result). The witness
instantiates the spec case maxBatch = 4 over 10 unprocessed items. -/
theorem C5_batch_selection (isProc : String → Bool) (batch : Nat)
    (l l2 : List DriveManager.DriveImage) (hb : 1 ≤ batch) :
    DriveManager.pick_new_images isProc batch l =
      (l.filter (fun i => !(isProc i.file_id))).take batch ∧
    (DriveManager.pick_new_images isProc batch l).length =
      min batch (l.filter (fun i => !(isProc i.file_id))).length ∧
    ((l.filter (fun i => !(isProc i.file_id))).length = batch →
      DriveManager.pick_new_images isProc batch (l ++ l2) =
        DriveManager.pick_new_images isProc batch l) := by
  refine ⟨pick_new_images_eq isProc batch hb l, ?_, ?_⟩
  · rw [pick_new_images_eq isProc batch hb l]
    simp [List.length_take]
  · intro hf
    rw [pick_new_images_eq isProc batch hb (l ++ l2),
      pick_new_images_eq isProc batch hb l, List.filter_append,
      List.take_append_of_le_length (le_of_eq hf.symm)]

/-- Witness for C5: maxBatch = 4 over a backlog of 10 unprocessed items
returns exactly 4. -/
theorem C5_witness :
    (DriveManager.pick_new_images noneProcessed 4 tenImgs).length = 4 := by
  have h := (C5_batch_selection noneProcessed 4 tenImgs [] (by decide)).2.1
  rw [h]
  decide

/-- Claim C5 counterexample: for maxBatch = 0 over one unprocessed item
the selection returns that item (the cap check runs only after the append,
so the loop body executes once), not min(0, 1) = 0 items as claimed for
every maxBatch. -/
theorem C5_counterexample :
    ¬ ((DriveManager.pick_new_images noneProcessed 0 [exImg 0]).length =
        min 0 (([exImg 0].filter
          (fun i => !(noneProcessed i.file_id))).length)) := by
  decide

/-- Claim C6 (amended): the pipeline source listing is ordered by
modification time ascending (oldest first) and is a permutation of the
folder contents; items with modification timestamps [T3, T1, T2] in
response order come back as [T1, T2, T3]. -/
theorem C6_listing_sorted (files : List DriveManager.GFile) :
    List.Sorted DriveManager.imgLe (DriveManager._list_images_in_folder files) ∧
    (DriveManager._list_images_in_folder files).Perm
      (files.map DriveManager.toDriveImage) ∧
    DriveManager._list_images_in_folder [fT3, fT1, fT2] =
      [DriveManager.toDriveImage fT1, DriveManager.toDriveImage fT2,
        DriveManager.toDriveImage fT3] :=
  ⟨List.sorted_insertionSort _ _, List.perm_insertionSort _ _, by decide⟩

/-- Claim C6 counterexample: the listing sorts by modification time, not
creation time. For a folder holding a file created first but modified
last (gA) and a file created second but modified first (gB), the listing
returns gB before gA, so the creation timestamps of the returned order
are not ascending. -/
theorem C6_counterexample :
    DriveManager._list_images_in_folder [gA, gB] =
      [DriveManager.toDriveImage gB, DriveManager.toDriveImage gA] ∧
    ¬ List.Sorted (fun a b : String => a.data ≤ b.data)
      ((DriveManager._list_images_in_folder [gA, gB]).map
        (fun i => createdOf [gA, gB] i.file_id)) := by
  constructor
  · decide
  · decide

/-- Claim C1: a mark-processed call happens only in a run whose publish
step succeeded, and whenever any step from selection through publish
raises, the run returns a failure result and makes no mark-processed call
at all. -/
theorem C1_publish_gates_state (env : Pipeline.PipelineEnv) :
    (∀ fid, Pipeline.Step.mark fid ∈ (Pipeline.run env).2 →
      env.git_publish = Except.ok ()) ∧
    (Pipeline.step_raised env →
      (Pipeline.run env).1.ok = false ∧
      ∀ fid, Pipeline.Step.mark fid ∉ (Pipeline.run env).2) := by
  constructor
  · intro fid hmem
    rcases hfind : Pipeline.secrets.find? env.tracked with _ | s
    · rcases hpick : env.pick_and_download with e | l
      · simp [Pipeline.run, hfind, hpick] at hmem
      · by_cases hemp : l.isEmpty = true
        · simp [Pipeline.run, hfind, hpick, hemp] at hmem
        · rcases hgen : env.ai_generate with e | u
          · simp [Pipeline.run, hfind, hpick, hemp, hgen] at hmem
          · rcases hbld : env.build_content with e | br
            · simp [Pipeline.run, hfind, hpick, hemp, hgen, hbld] at hmem
            · rcases hpub : env.git_publish with e | v
              · simp [Pipeline.run, hfind, hpick, hemp, hgen, hbld, hpub] at hmem
              · cases v
                rfl
    · simp [Pipeline.run, hfind] at hmem
  · intro hr
    rcases hfind : Pipeline.secrets.find? env.tracked with _ | s
    · rcases hpick : env.pick_and_download with e | l
      · exact ⟨by simp [Pipeline.run, hfind, hpick],
          fun fid => by simp [Pipeline.run, hfind, hpick]⟩
      · rcases hr with hko | ⟨l2, hl2, hne, hsteps⟩
        · rw [hpick] at hko
          simp [Except.isOk, Except.toBool] at hko
        · rw [hpick] at hl2
          injection hl2 with hll
          subst hll
          have hemp : ¬ (l.isEmpty = true) := by simp [List.isEmpty_iff, hne]
          rcases hgen : env.ai_generate with e | u
          · exact ⟨by simp [Pipeline.run, hfind, hpick, hemp, hgen],
              fun fid => by simp [Pipeline.run, hfind, hpick, hemp, hgen]⟩
          · rcases hbld : env.build_content with e | br
            · exact ⟨by simp [Pipeline.run, hfind, hpick, hemp, hgen, hbld],
                fun fid => by simp [Pipeline.run, hfind, hpick, hemp, hgen, hbld]⟩
            · rcases hpub : env.git_publish with e | v
              · exact ⟨by simp [Pipeline.run, hfind, hpick, hemp, hgen, hbld, hpub],
                  fun fid => by
                    simp [Pipeline.run, hfind, hpick, hemp, hgen, hbld, hpub]⟩
              · rcases hsteps with hg | hb | hp2
                · rw [hgen] at hg
                  simp [Except.isOk, Except.toBool] at hg
                · rw [hbld] at hb
                  simp [Except.isOk, Except.toBool] at hb
                · rw [hpub] at hp2
                  simp [Except.isOk, Except.toBool] at hp2
    · exact ⟨by simp [Pipeline.run, hfind],
        fun fid => by simp [Pipeline.run, hfind]⟩

/-- Witness for C1: a run whose selection step raises fails and makes no
mark-processed call. -/
theorem C1_witness :
    (Pipeline.run envPickFail).1.ok = false ∧
    Pipeline.Step.mark "f1" ∉ (Pipeline.run envPickFail).2 := by
  have h := (C1_publish_gates_state envPickFail).2 (Or.inl rfl)
  exact ⟨h.1, h.2 "f1"⟩

/-- Claim C2: when git reports one of the secret files as tracked, the run
terminates with a failure result and invokes nothing at all - the call
trace is empty, so fetch, generate, assemble, publish and every state
mutation are never invoked. -/
theorem C2_security_gate (env : Pipeline.PipelineEnv) (s : String)
    (hs : s ∈ Pipeline.secrets) (ht : env.tracked s = true) :
    (Pipeline.run env).1.ok = false ∧ (Pipeline.run env).2 = [] := by
  have hsome : (Pipeline.secrets.find? env.tracked).isSome = true :=
    List.find?_isSome.mpr ⟨s, hs, ht⟩
  rcases Option.isSome_iff_exists.mp hsome with ⟨s2, hfind⟩
  exact ⟨by simp [Pipeline.run, hfind], by simp [Pipeline.run, hfind]⟩

/-- Witness for C2: a run in which .env is tracked. -/
theorem C2_witness :
    (Pipeline.run envSec).1.ok = false ∧ (Pipeline.run envSec).2 = [] :=
  C2_security_gate envSec ".env" (by decide) rfl

/-- Claim C4: once publish has succeeded, per-item state-write failures
are absorbed - the run still returns success and processed_count is the
number of items whose state write succeeded. -/
theorem C4_state_write_failures_tolerated (env : Pipeline.PipelineEnv)
    (l : List DriveManager.DriveImage) (br : Pipeline.BuildResult)
    (hsec : ∀ s ∈ Pipeline.secrets, env.tracked s = false)
    (hp : env.pick_and_download = Except.ok l) (hne : l ≠ [])
    (hg : env.ai_generate = Except.ok ())
    (hb : env.build_content = Except.ok br)
    (hpub : env.git_publish = Except.ok ()) :
    (Pipeline.run env).1.ok = true ∧
    (Pipeline.run env).1.processed_count =
      (l.filter (fun img => (env.mark_processed img.file_id).isOk)).length := by
  have hfind : Pipeline.secrets.find? env.tracked = none := by
    rw [List.find?_eq_none]
    intro s hsmem
    simp [hsec s hsmem]
  have hemp : ¬ (l.isEmpty = true) := by simp [List.isEmpty_iff, hne]
  constructor <;> simp [Pipeline.run, hfind, hp, hemp, hg, hb, hpub]

/-- Witness for C4: both steps succeed, the state write for the second of
two images fails, the run succeeds with processed_count = 1. -/
theorem C4_witness :
    (Pipeline.run envMarkFail).1.ok = true ∧
    (Pipeline.run envMarkFail).1.processed_count = 1 := by
  have h := C4_state_write_failures_tolerated envMarkFail [exImg 1, exImg 2]
    exBr (by decide) rfl (by decide) rfl rfl rfl
  refine ⟨h.1, ?_⟩
  rw [h.2]
  decide

/-- Claim C8 (amended): the legacy generator ai_make_title_and_captions
never raises - on a failed service call or an unparsable response it
returns the placeholder result (generic title, placeholder caption per
item); the app generator succeeds on every non-empty batch in mock mode
(but can raise otherwise, per the counterexample). -/
theorem C8_generation_degrades :
    (∀ (n : Nat) (e : String),
      Blog.ai_make_title_and_captions n (Except.error e) =
        { title := Blog.default_title,
          captions := List.replicate n Blog.placeholder_caption }) ∧
    (∀ n : Nat,
      Blog.ai_make_title_and_captions n (Except.ok none) =
        { title := Blog.default_title,
          captions := List.replicate n Blog.placeholder_caption }) ∧
    (∀ (p : AIProcessor.Processor) (imgs : List DriveManager.DriveImage),
      p.mock_mode = true → imgs ≠ [] →
      AIProcessor.generate_photo_captions p imgs =
        Except.ok (AIProcessor._mock_captions (imgs.take 4))) := by
  refine ⟨fun n e => rfl, fun n => rfl, ?_⟩
  intro p imgs hm hne
  have hemp : ¬ (imgs.isEmpty = true) := by simp [List.isEmpty_iff, hne]
  simp [AIProcessor.generate_photo_captions, hemp, hm]

/-- Witness for C8 on a one-image batch in mock mode. -/
theorem C8_witness :
    mockProc.mock_mode = true ∧
    AIProcessor.generate_photo_captions mockProc [exImg 1] =
      Except.ok (AIProcessor._mock_captions ([exImg 1].take 4)) :=
  ⟨rfl, C8_generation_degrades.2.2 mockProc [exImg 1] rfl (by decide)⟩

/-- Claim C8 counterexample: the app generator
AIProcessor.generate_photo_captions raises on a non-empty batch whenever
mock mode is off (real mode is disabled in the source), and a generation
error makes the run fail - so content generation can raise an error that
aborts the cycle, contradicting the claim as stated. -/
theorem C8_counterexample :
    AIProcessor.generate_photo_captions realProc [exImg 1] =
      Except.error "Real AI mode is disabled for now. Set ai.mock_mode=true to continue development." ∧
    (Pipeline.run envGenFail).1.ok = false := by
  constructor
  · rfl
  · rfl
